import Mathlib

/-!
# Verification of the Prover9-Mace4 process lifecycle manager

A shallow embedding of the process lifecycle manager of the
Prover9-Mace4-Web repository, together with theorems settling the claims
of the specification against it.

The repository contains two near-duplicate revisions of the manager:

* `api_server.py` keeps an in-memory dictionary `processes` guarded by a
  lock, with endpoints `start`, `status`, `kill`, `pause`, `resume` and
  `process` (delete) and its own `run_program`;
* `process_handler.py` keeps the records in a SQLite-backed table
  (`db_models.ProcessModel`) through `add_process_info`,
  `get_process_info`, `update_process_info`, `remove_process_info` and
  its own `run_program`.

Both are embedded below, in the namespaces `ApiServer` and
`ProcessHandler`.  Machine-external behaviour (the OS process, `psutil`,
the wall clock, temporary-file naming) is supplied by explicit
environment records, and each monitoring loop consumes a finite list of
"ticks", one per loop iteration in which `process.poll()` returned
`None`; externally concurrent state writes (the kill endpoint) are
modelled as an optional state value carried by the tick and applied to
the registry before the iteration's body runs.
-/

/-- `p9m4_types.ProcessState` / `api_server.ProcessState`: lifecycle states. -/
inductive ProcessState
  | ready
  | running
  | suspended
  | done
  | error
  | killed
deriving Repr, DecidableEq

/-- `p9m4_types.ProgramType` / `api_server.ProgramType`: the executable kinds. -/
inductive ProgramType
  | prover9
  | mace4
  | isofilter
  | isofilter2
  | interpformat
  | prooftrans
deriving Repr, DecidableEq

/-- The `.value` string of each `ProgramType` member (the Python enum values). -/
def ProgramType.value : ProgramType → String
  | .prover9 => "prover9"
  | .mace4 => "mace4"
  | .isofilter => "isofilter"
  | .isofilter2 => "isofilter2"
  | .interpformat => "interpformat"
  | .prooftrans => "prooftrans"

/-- A value stored in one of the Python statistics dictionaries: an integer,
or a decimal literal kept as the matched text (`float(...)` in the source). -/
inductive StatValue
  | int (n : Int)
  | dec (s : String)
  | str (s : String)
deriving Repr, DecidableEq

/-- Does `pat` occur as a contiguous sublist?  (Structural recursion, so it
evaluates inside the kernel.) -/
def subOccurs (pat : List Char) : List Char → Bool
  | [] => pat.isEmpty
  | c :: rest => pat.isPrefixOf (c :: rest) || subOccurs pat rest

/-- Python `pat in s` for a literal pattern: substring occurrence. -/
def strContains (s pat : String) : Bool :=
  subOccurs pat.data s.data

/-- Python `s.startswith(pat)` for a literal pattern. -/
def strStartsWith (s pat : String) : Bool :=
  pat.data.isPrefixOf s.data

/-- The suffixes of `s` that start immediately after each occurrence of the
literal `pat`, left to right.  Used to model leftmost `re.search` on patterns
that begin with a literal. -/
def occSuffixes (pat s : String) : List String :=
  let parts := s.splitOn pat
  (List.range (parts.length - 1)).map fun i => String.intercalate pat (parts.drop (i + 1))

/-- Parse a non-empty leading digit run: the regex fragment `(\d+)`. -/
def parseNat1 (s : String) : Option (Nat × String) :=
  let d := s.takeWhile Char.isDigit
  match d.toNat? with
  | some n => some (n, s.drop d.length)
  | none => none

/-- Match a literal and return the rest of the text, or fail. -/
def dropLit (lit s : String) : Option String :=
  if s.startsWith lit then some (s.drop lit.length) else none

/-- The regex `DOMAIN SIZE (\d+)` of `process_handler.run_program`: the first
occurrence of the literal followed by at least one digit yields the (maximal)
digit run. -/
def domain_size_search (line : String) : Option Nat :=
  (occSuffixes "DOMAIN SIZE " line).findSome? fun t =>
    (t.takeWhile Char.isDigit).toNat?

/-- Python exceptions that the embedded code can raise. -/
inductive PyErr
  | attributeError (msg : String)
  | typeError (msg : String)
  | ioError (msg : String)
deriving Repr, DecidableEq

/-- Python `str(e)`: the message of the exception. -/
def PyErr.msg : PyErr → String
  | .attributeError m => m
  | .typeError m => m
  | .ioError m => m

/-- The option bag accepted by both `run_program` revisions (`options.get(...)`
on the recognized keys; a missing key is `none`/`false`). -/
structure RunOptions where
  wrap : Bool := false
  ignore_constants : Bool := false
  check : Option String := none
  output : Option String := none
  format : Option String := none
  expand : Bool := false
  renumber : Bool := false
  striplabels : Bool := false
deriving Repr, DecidableEq

/-- The command-line construction shared verbatim by both `run_program`
revisions: `command = [program_path]` followed by the per-kind option
tokens. -/
def build_command (program_path : String) (program : ProgramType)
    (options : Option RunOptions) : List String :=
  [program_path] ++
    match program, options with
    | .mace4, _ => ["-c"]
    | .isofilter, some o =>
        (if o.wrap then ["wrap"] else [])
          ++ (if o.ignore_constants then ["ignore_constants"] else [])
          ++ (match o.check with | some v => ["check", v] | none => [])
          ++ (match o.output with | some v => ["output", v] | none => [])
    | .interpformat, some o =>
        (match o.format with | some f => [f] | none => [])
    | .prooftrans, some o =>
        (match o.format with | some f => [f] | none => [])
          ++ (if o.expand then ["expand"] else [])
          ++ (if o.renumber then ["renumber"] else [])
          ++ (if o.striplabels then ["striplabels"] else [])
    | _, _ => []

/-- An HTTP error raised through FastAPI's `HTTPException`. -/
structure HttpError where
  status_code : Nat
  detail : String
deriving Repr, DecidableEq

deriving instance DecidableEq for Except

/-- OS signals sent by the signal-controlling endpoints. -/
inductive Signal
  | sigkill
  | sigstop
  | sigcont
deriving Repr, DecidableEq

namespace ApiServer

/-- `api_server.ProcessInfo`: the record stored in the in-memory `processes`
dictionary.  `datetime` values are abstracted as `Nat` timestamps; the
statistics and resource-usage dictionaries as association lists. -/
structure ProcessInfo where
  pid : Int
  start_time : Nat
  state : ProcessState
  program : ProgramType
  input : String
  output : Option String := none
  error : Option String := none
  exit_code : Option Int := none
  stats : Option (List (String × StatValue)) := none
  resource_usage : Option (List (String × StatValue)) := none
  options : Option RunOptions := none
deriving Repr, DecidableEq

/-- The global `processes : Dict[int, ProcessInfo]` dictionary, as an
association list (each identifier occurs at most once in any state the
endpoints construct). -/
abbrev Registry := List (Nat × ProcessInfo)

/-- Dictionary read `processes[id]` / `id in processes`. -/
def regLookup : Registry → Nat → Option ProcessInfo
  | [], _ => none
  | (k, v) :: rest, id => if k = id then some v else regLookup rest id

/-- In-place mutation of the record object held under `id`
(`processes[id].field = ...`). -/
def regModify : Registry → Nat → (ProcessInfo → ProcessInfo) → Registry
  | [], _, _ => []
  | (k, v) :: rest, id, f =>
      if k = id then (k, f v) :: regModify rest id f else (k, v) :: regModify rest id f

/-- Dictionary deletion `del processes[id]`. -/
def regErase : Registry → Nat → Registry
  | [], _ => []
  | (k, v) :: rest, id => if k = id then rest else (k, v) :: regErase rest id

/-- Result of the `/kill/{process_id}` endpoint: the dictionary afterwards,
the OS signals sent, and the HTTP response. -/
structure KillResult where
  registry : Registry
  signals : List (Int × Signal)
  response : Except HttpError String
deriving Repr, DecidableEq

/-- `api_server.kill_process`: reject an unknown identifier with 404; reject a
record whose state is not RUNNING or SUSPENDED with 400; otherwise send
SIGKILL to the tracked pid and set the state to KILLED. -/
def kill_process (processes : Registry) (process_id : Nat) : KillResult :=
  match regLookup processes process_id with
  | none => ⟨processes, [], .error ⟨404, "Process not found"⟩⟩
  | some info =>
      if info.state = .running ∨ info.state = .suspended then
        ⟨regModify processes process_id (fun i => { i with state := .killed }),
          [(info.pid, .sigkill)], .ok s!"Process {process_id} killed"⟩
      else
        ⟨processes, [], .error ⟨400, "Process is not running or suspended"⟩⟩

/-- Result of the `/process/{process_id}` delete endpoint.  The endpoint body
touches only the `processes` dictionary; the filesystem (the list `fs` of
existing on-disk paths) is threaded through unchanged because the source
performs no file operation. -/
structure RemoveResult where
  registry : Registry
  fs : List String
  response : Except HttpError String
deriving Repr, DecidableEq

/-- `api_server.remove_process`: reject an unknown identifier with 404; allow
removal only from DONE, ERROR or KILLED; on success delete the dictionary
entry (and nothing else). -/
def remove_process (processes : Registry) (process_id : Nat) (fs : List String) :
    RemoveResult :=
  match regLookup processes process_id with
  | none => ⟨processes, fs, .error ⟨404, "Process not found"⟩⟩
  | some info =>
      if info.state = .done ∨ info.state = .error ∨ info.state = .killed then
        ⟨regErase processes process_id, fs, .ok s!"Process {process_id} removed"⟩
      else
        ⟨processes, fs, .error ⟨400, "Can only remove completed, errored, or killed processes"⟩⟩

/-- Result of the `/pause/{process_id}` and `/resume/{process_id}` endpoints. -/
structure SignalResult where
  registry : Registry
  signals : List (Int × Signal)
  response : Except HttpError String
deriving Repr, DecidableEq

/-- `api_server.pause_process`: 404 on unknown id, 400 when the state is not
RUNNING, 400 on Windows (`os.name == 'nt'`); otherwise set SUSPENDED and send
SIGSTOP to the tracked pid. -/
def pause_process (platform_nt : Bool) (processes : Registry) (process_id : Nat) :
    SignalResult :=
  match regLookup processes process_id with
  | none => ⟨processes, [], .error ⟨404, "Process not found"⟩⟩
  | some info =>
      if info.state ≠ .running then
        ⟨processes, [], .error ⟨400, "Process is not running"⟩⟩
      else if platform_nt then
        ⟨processes, [], .error ⟨400, "Windows cannot pause a process"⟩⟩
      else
        ⟨regModify processes process_id (fun i => { i with state := .suspended }),
          [(info.pid, .sigstop)], .ok "Process paused"⟩

/-- `api_server.resume_process`: 404 on unknown id, 400 when the state is not
SUSPENDED, 400 on Windows; otherwise set RUNNING and send SIGCONT. -/
def resume_process (platform_nt : Bool) (processes : Registry) (process_id : Nat) :
    SignalResult :=
  match regLookup processes process_id with
  | none => ⟨processes, [], .error ⟨404, "Process not found"⟩⟩
  | some info =>
      if info.state ≠ .suspended then
        ⟨processes, [], .error ⟨400, "Process is not paused"⟩⟩
      else if platform_nt then
        ⟨processes, [], .error ⟨400, "Windows cannot resume a process"⟩⟩
      else
        ⟨regModify processes process_id (fun i => { i with state := .running }),
          [(info.pid, .sigcont)], .ok "Process resumed"⟩

/-- `api_server.get_status`: return the stored record, or 404. -/
def get_status (processes : Registry) (process_id : Nat) : Except HttpError ProcessInfo :=
  match regLookup processes process_id with
  | none => .error ⟨404, "Process not found"⟩
  | some info => .ok info

end ApiServer

namespace ApiServer

/-- The body of the regex
`Given=(\d+)\. Generated=(\d+)\. Kept=(\d+)\. proofs=(\d+)\.User_CPU=(\d*\.\d*),`
matched against the text following one occurrence of `Given=`.  Digit runs are
maximal and each is followed by a required literal, so the regex match is this
deterministic parse. -/
def prover9_match (t : String) : Option (List (String × StatValue)) := do
  let (g, t) ← parseNat1 t
  let t ← dropLit ". Generated=" t
  let (gen, t) ← parseNat1 t
  let t ← dropLit ". Kept=" t
  let (k, t) ← parseNat1 t
  let t ← dropLit ". proofs=" t
  let (pf, t) ← parseNat1 t
  let t ← dropLit ".User_CPU=" t
  let d1 := t.takeWhile Char.isDigit
  let t := t.drop d1.length
  let t ← dropLit "." t
  let d2 := t.takeWhile Char.isDigit
  let t := t.drop d2.length
  let _ ← dropLit "," t
  pure [("given", .int g), ("generated", .int gen), ("kept", .int k),
        ("proofs", .int pf), ("cpu_time", .dec (d1 ++ "." ++ d2))]

/-- `api_server.get_prover9_stats`. -/
def get_prover9_stats (output : String) : List (String × StatValue) :=
  if strContains output "Given=" then
    match (occSuffixes "Given=" output).findSome? prover9_match with
    | some stats => stats
    | none => []
  else []

/-- The body of the regex `Domain_size=(\d+)\. Models=(\d+)\. User_CPU=(\d*\.\d*)\.`
matched against the text following one occurrence of `Domain_size=`. -/
def mace4_match (t : String) : Option (List (String × StatValue)) := do
  let (d, t) ← parseNat1 t
  let t ← dropLit ". Models=" t
  let (m, t) ← parseNat1 t
  let t ← dropLit ". User_CPU=" t
  let d1 := t.takeWhile Char.isDigit
  let t := t.drop d1.length
  let t ← dropLit "." t
  let d2 := t.takeWhile Char.isDigit
  let t := t.drop d2.length
  let _ ← dropLit "." t
  pure [("domain_size", .int d), ("models", .int m), ("cpu_time", .dec (d1 ++ "." ++ d2))]

/-- `api_server.get_mace4_stats`. -/
def get_mace4_stats (output : String) : List (String × StatValue) :=
  if strContains output "Domain_size=" then
    match (occSuffixes "Domain_size=" output).findSome? mace4_match with
    | some stats => stats
    | none => []
  else []

/-- The body of the regex `input=(\d+), kept=(\d+)` matched against the text
following one occurrence of `input=`. -/
def isofilter_match (t : String) : Option (List (String × StatValue)) := do
  let (i, t) ← parseNat1 t
  let t ← dropLit ", kept=" t
  let (k, _) ← parseNat1 t
  pure [("input_models", .int i), ("kept_models", .int k),
        ("removed_models", .int ((i : Int) - (k : Int)))]

/-- `api_server.get_isofilter_stats`. -/
def get_isofilter_stats (output : String) : List (String × StatValue) :=
  if strContains output "input=" then
    match (occSuffixes "input=" output).findSome? isofilter_match with
    | some stats => stats
    | none => []
  else []

/-- One iteration of `api_server.run_program`'s monitoring loop in which
`process.poll()` returned `None`: `usage` is the `get_process_stats` result
(external to the repository, supplied by the environment) and `external` is a
state value concurrently written into the record during the previous sleep
(the kill endpoint writes `KILLED`). -/
structure ApiTick where
  external : Option ProcessState := none
  usage : List (String × StatValue) := []
deriving Repr, DecidableEq

/-- The monitoring loop of `api_server.run_program` (lines 559-569): on each
iteration update `resource_usage`, then break when the record's state reads
KILLED (after terminating the OS process).  Returns the dictionary and whether
the loop ended by observing KILLED.  When the tick list is exhausted the
process has exited and the loop falls through. -/
def api_monitor (process_id : Nat) (reg : Registry) : List ApiTick → Registry × Bool
  | [] => (reg, false)
  | t :: rest =>
      let reg1 := match t.external with
        | some s => regModify reg process_id (fun i => { i with state := s })
        | none => reg
      let reg2 := regModify reg1 process_id (fun i => { i with resource_usage := some t.usage })
      if (regLookup reg2 process_id).map (·.state) = some .killed then (reg2, true)
      else api_monitor process_id reg2 rest

/-- The final record update of `api_server.run_program` (lines 571-591):
capture exit code, output, error, set state DONE, and update the statistics
dictionary for the prover, model-finder and isomorphism-filter kinds. -/
def finish_update (program : ProgramType) (exit_code : Option Int)
    (outText errText : String) (info : ProcessInfo) : ProcessInfo :=
  let base := { info with exit_code := exit_code, output := some outText,
                          error := some errText, state := ProcessState.done }
  match program with
  | .prover9 => { base with stats := some (get_prover9_stats outText) }
  | .mace4 => { base with stats := some (get_mace4_stats outText) }
  | .isofilter => { base with stats := some (get_isofilter_stats outText) }
  | .isofilter2 => { base with stats := some (get_isofilter_stats outText) }
  | _ => base

/-- Environment of one `api_server.run_program` call: everything decided
outside the repository (binary presence, the spawned pid, poll results, the
stream contents). -/
structure ApiRunEnv where
  binaryOk : Bool
  programPath : String
  pid : Int
  ticks : List ApiTick
  naturalExit : Int
  termPoll : Option Int
  outText : String
  errText : String
deriving Repr, DecidableEq

/-- Result of one `api_server.run_program` call: the dictionary afterwards,
the command spawned (none when no OS process was created) and whether
`process.terminate()` was called. -/
structure ApiRunResult where
  registry : Registry
  spawnedCommand : Option (List String)
  terminated : Bool
deriving Repr, DecidableEq

/-- `api_server.run_program` (lines 495-597).  When the binary is missing the
record goes straight to ERROR with a message naming the program and nothing is
spawned.  Otherwise the command is built and spawned with the three scratch
temporary streams, the record gets the pid and state RUNNING, the monitoring
loop runs, and the completion block records exit code, output, error and
state DONE (the exit code read after `terminate()` may itself be `None`). -/
def api_run_program (env : ApiRunEnv) (program : ProgramType) (_input_text : String)
    (process_id : Nat) (options : Option RunOptions) (reg : Registry) : ApiRunResult :=
  if env.binaryOk = false then
    { registry := regModify reg process_id (fun i =>
        { i with state := ProcessState.error,
                 error := some (program.value ++ " binary not found or not executable") }),
      spawnedCommand := none, terminated := false }
  else
    let command := build_command env.programPath program options
    let reg1 := regModify reg process_id (fun i =>
      { i with pid := env.pid, state := ProcessState.running })
    let (reg2, observedKill) := api_monitor process_id reg1 env.ticks
    let exit_code := if observedKill then env.termPoll else some env.naturalExit
    let reg3 := regModify reg2 process_id (finish_update program exit_code env.outText env.errText)
    { registry := reg3, spawnedCommand := some command, terminated := observedKill }

end ApiServer

namespace ProcessHandler

/-- A row of `db_models.ProcessModel` (equivalently `p9m4_types.ProcessInfo`
plus the `process_id` key): the durable job record. -/
structure DbProcess where
  process_id : Nat
  pid : Int
  start_time : Nat
  state : ProcessState
  program : ProgramType
  input_text : String
  error : Option String := none
  exit_code : Option Int := none
  stats : Option String := none
  resource_usage : List (String × StatValue) := []
  options : Option RunOptions := none
  fin_path : Option String := none
  fout_path : Option String := none
  ferr_path : Option String := none
deriving Repr, DecidableEq

/-- The `processes` table of the SQLite store, as a list of rows keyed by
`process_id` (the primary key, so at most one row per identifier). -/
abbrev Db := List DbProcess

/-- `session.query(ProcessModel).filter_by(process_id=id).first()`. -/
def dbLookup : Db → Nat → Option DbProcess
  | [], _ => none
  | p :: rest, id => if p.process_id = id then some p else dbLookup rest id

/-- The keyword arguments accepted by `update_process_info(process_id, **kwargs)`
at its call sites in `process_handler.py`: each present field is written with
`setattr`.  (`exit_code` can be explicitly set to `None`, hence the nested
option.) -/
structure InfoDelta where
  state : Option ProcessState := none
  error : Option String := none
  exit_code : Option (Option Int) := none
  stats : Option String := none
  resource_usage : Option (List (String × StatValue)) := none
deriving Repr, DecidableEq

/-- Apply the `setattr` loop of `update_process_info` to one row. -/
def applyDelta (p : DbProcess) (kw : InfoDelta) : DbProcess :=
  { p with
    state := kw.state.getD p.state,
    error := match kw.error with | some e => some e | none => p.error,
    exit_code := kw.exit_code.getD p.exit_code,
    stats := match kw.stats with | some s => some s | none => p.stats,
    resource_usage := kw.resource_usage.getD p.resource_usage }

/-- `process_handler.get_process_info`: read the row for an identifier (the
field-for-field copy into `ProcessInfo` is the identity here). -/
def get_process_info (db : Db) (process_id : Nat) : Option DbProcess :=
  dbLookup db process_id

/-- `process_handler.add_process_info`: `session.add` + `commit` of a fresh
row.  (The call sites only ever insert an identifier that has no row yet; the
primary-key-violation path is not modelled.) -/
def add_process_info (db : Db) (p : DbProcess) : Db :=
  db ++ [p]

/-- `process_handler.update_process_info`: update the first matching row and
commit; when no row matches, return with **no effect and no error**. -/
def update_process_info : Db → Nat → InfoDelta → Db
  | [], _, _ => []
  | p :: rest, id, kw =>
      if p.process_id = id then applyDelta p kw :: rest
      else p :: update_process_info rest id kw

/-- `process_handler.remove_process_info`: delete the first matching row and
commit; when no row matches, return with **no effect and no error**. -/
def remove_process_info : Db → Nat → Db
  | [], _ => []
  | p :: rest, id => if p.process_id = id then rest else p :: remove_process_info rest id

/-- The error the registry contract of the specification prescribes for an
absent identifier. -/
inductive DbError
  | notFound
deriving Repr, DecidableEq

/-- Modelled from the spec (refinement reference, not source code):
"`update` and `delete` fail with NotFound if the identifier is absent."
The update operation as the specification words it, for comparison with the
source translation `update_process_info`. -/
def registry_update_spec (db : Db) (id : Nat) (kw : InfoDelta) : Except DbError Db :=
  match dbLookup db id with
  | none => .error .notFound
  | some _ => .ok (update_process_info db id kw)

/-- Modelled from the spec (refinement reference, not source code): the delete
operation as the specification words it, for comparison with the source
translation `remove_process_info`. -/
def registry_delete_spec (db : Db) (id : Nat) : Except DbError Db :=
  match dbLookup db id with
  | none => .error .notFound
  | some _ => .ok (remove_process_info db id)

/-- `run_program`'s `input_text : Union[str, int]` argument. -/
inductive PyInput
  | int (n : Nat)
  | text (s : String)
deriving Repr, DecidableEq

/-- Modelled from the spec: `parse.manual_standardize_mace4_output` is
imported by `process_handler.py` (and exercised by `tests/test_parse.py`) but
the `parse.py` of this snapshot does not contain it.  Per the specification it
is the external parser/generator collaborator that normalizes the literal
input text of an isomorphism-filter job; it is a text transform, so applied to
a non-text (integer) value it raises a type error, and on text it returns
text.  The content of the normalization is irrelevant to every claim, so the
text-to-text case is embedded as returning the text unchanged. -/
def manual_standardize_mace4_output : PyInput → Except PyErr PyInput
  | .int _ => .error (.typeError "manual_standardize_mace4_output expected a string, got int")
  | .text s => .ok (.text s)

/-- The accumulator of the per-tick statistics scan of
`process_handler.run_program` (lines 289-311): the collected block text, the
inside-a-block flag and the last matched domain size. -/
structure StatsAcc where
  stats : String := ""
  started : Bool := false
  domain_size : Nat := 0
deriving Repr, DecidableEq

/-- One line of the statistics scan: isomorphism-filter kinds keep the last
`% isofilter` line; other kinds track `STATISTICS` blocks closed by a line of
`===`, with the model-finder kind additionally recording `DOMAIN SIZE n`
matches. -/
def stats_step (program : ProgramType) (acc : StatsAcc) (line : String) : StatsAcc :=
  if program = .isofilter ∨ program = .isofilter2 then
    if strStartsWith line "% isofilter" then { acc with stats := line } else acc
  else
    let acc :=
      if program = .mace4 then
        match domain_size_search line with
        | some n => { acc with domain_size := n }
        | none => acc
      else acc
    if acc.started = false then
      if strContains line "STATISTICS" then { acc with started := true, stats := "" }
      else acc
    else
      if strStartsWith line "===" then { acc with started := false }
      else { acc with stats := acc.stats ++ line }

/-- The Output Stats Extractor: one full pass of the scan over the output
file's lines, with the `Domain size:` prefix appended when a positive domain
size was seen (lines 287-313 of `process_handler.run_program`). -/
def extract_stats (program : ProgramType) (lines : List String) : String :=
  let acc := lines.foldl (stats_step program) {}
  if acc.domain_size > 0 then
    "Domain size: " ++ toString acc.domain_size ++ "\n" ++ acc.stats
  else acc.stats

/-- One iteration of `process_handler.run_program`'s monitoring loop in which
`process.poll()` returned `None`: the `psutil` usage snapshot, the output
file's lines at this tick, and an optional state concurrently written into
the record during the previous sleep. -/
structure PhTick where
  externalState : Option ProcessState := none
  usage : List (String × StatValue) := []
  outLines : List String := []
deriving Repr, DecidableEq

/-- Observable actions of `process_handler.run_program`, in program order. -/
inductive PhEffect
  | createTemp (name : String)
  | spawn (command : List String)
  | addInfo (process_id : Nat)
  | updateInfo (process_id : Nat) (kw : InfoDelta)
  | removeInfo (process_id : Nat)
  | terminateProc (pid : Int)
  | closeFile (name : String)
  | unlink (name : String)
deriving Repr, DecidableEq

/-- The monitoring loop of `process_handler.run_program` (lines 283-323): per
tick, write the resource usage, extract and write the statistics from the
whole output file, then break (terminating the OS process) when the record's
state reads KILLED. -/
def ph_monitor (program : ProgramType) (process_id : Nat) (pid : Int) :
    Db → List PhTick → Db × List PhEffect × Bool
  | db, [] => (db, [], false)
  | db, t :: rest =>
      let db0 := match t.externalState with
        | some s => update_process_info db process_id { state := some s }
        | none => db
      let db1 := update_process_info db0 process_id { resource_usage := some t.usage }
      let stats := extract_stats program t.outLines
      let db2 := update_process_info db1 process_id { stats := some stats }
      let tickEffs := [PhEffect.updateInfo process_id { resource_usage := some t.usage },
                       PhEffect.updateInfo process_id { stats := some stats }]
      match get_process_info db2 process_id with
      | some pi =>
          if pi.state = .killed then (db2, tickEffs ++ [.terminateProc pid], true)
          else
            let (db', effs', k) := ph_monitor program process_id pid db2 rest
            (db', tickEffs ++ effs', k)
      | none =>
          let (db', effs', k) := ph_monitor program process_id pid db2 rest
          (db', tickEffs ++ effs', k)

/-- Environment of one `process_handler.run_program` call. -/
structure PhEnv where
  binaryOk : Bool
  programPath : String
  finName : String
  foutName : String
  ferrName : String
  pid : Int
  now : Nat
  files : List (String × String)
  ticks : List PhTick
  naturalExit : Int
  termPoll : Option Int
  errContents : String
deriving Repr, DecidableEq

/-- Result of one `process_handler.run_program` call. -/
structure PhRunResult where
  db : Db
  effects : List PhEffect
deriving Repr, DecidableEq

/-- The `try:` body of `process_handler.run_program` (lines 208-338), from
input resolution to the completion block, returning the database, the effects
performed, and the exception at which the body aborted (if any). -/
def ph_try (env : PhEnv) (program : ProgramType) (input0 : PyInput)
    (process_id : Nat) (options : Option RunOptions) (db : Db) :
    Db × List PhEffect × Option PyErr :=
  let resolved : Except PyErr PyInput :=
    match input0 with
    | .int j =>
        match get_process_info db j with
        | some pi =>
            match pi.fout_path with
            | some path =>
                match (env.files.lookup path) with
                | some contents => .ok (.text contents)
                | none => .error (.ioError ("No such file or directory: " ++ path))
            | none => .error (.typeError "expected str, bytes or os.PathLike object, not NoneType")
        | none => .ok (.int j)
    | .text s => .ok (.text s)
  match resolved with
  | .error e => (db, [], some e)
  | .ok r1 =>
    let r2 : Except PyErr PyInput :=
      if program = .isofilter ∨ program = .isofilter2 then
        manual_standardize_mace4_output r1
      else .ok r1
    match r2 with
    | .error e => (db, [], some e)
    | .ok (.int _) => (db, [], some (.attributeError "int object has no attribute encode"))
    | .ok (.text inputStr) =>
      let command := build_command env.programPath program options
      let newRow : DbProcess :=
        { process_id := process_id, pid := env.pid, state := ProcessState.running,
          program := program, input_text := inputStr, error := some "",
          exit_code := none, stats := some "", resource_usage := [],
          options := options, fin_path := some env.finName,
          fout_path := some env.foutName, ferr_path := some env.ferrName,
          start_time := env.now }
      let db1 := add_process_info db newRow
      let (db2, monEffs, observedKill) := ph_monitor program process_id env.pid db1 env.ticks
      let exit_code := if observedKill then env.termPoll else some env.naturalExit
      let doneDelta : InfoDelta :=
        { exit_code := some exit_code, error := some env.errContents,
          state := some ProcessState.done }
      let db3 := update_process_info db2 process_id doneDelta
      let db4 := remove_process_info db3 process_id
      (db4,
        [PhEffect.spawn command, PhEffect.addInfo process_id] ++ monEffs
          ++ [PhEffect.updateInfo process_id doneDelta, PhEffect.removeInfo process_id],
        none)

/-- `process_handler.run_program` (lines 196-353): the binary check, the three
scratch files (`NamedTemporaryFile(delete=False)`), the `try:` body above, and
the `except:` handler that marks the record ERROR with the exception's
message, removes it, and closes and unlinks the three scratch files.  On the
success path the scratch files are neither closed nor deleted. -/
def ph_run_program (env : PhEnv) (program : ProgramType) (input0 : PyInput)
    (process_id : Nat) (options : Option RunOptions) (db : Db) : PhRunResult :=
  if env.binaryOk = false then
    let kw : InfoDelta :=
      { state := some ProcessState.error,
        error := some (program.value ++ " binary not found or not executable") }
    { db := update_process_info db process_id kw,
      effects := [.updateInfo process_id kw] }
  else
    let created := [PhEffect.createTemp env.finName, PhEffect.createTemp env.foutName,
                    PhEffect.createTemp env.ferrName]
    let (db1, effs1, exc) := ph_try env program input0 process_id options db
    match exc with
    | none => { db := db1, effects := created ++ effs1 }
    | some e =>
        let kw : InfoDelta := { state := some ProcessState.error, error := some e.msg }
        let db2 := update_process_info db1 process_id kw
        let db3 := remove_process_info db2 process_id
        { db := db3,
          effects := created ++ effs1 ++
            [.updateInfo process_id kw, .removeInfo process_id,
             .closeFile env.finName, .closeFile env.foutName, .closeFile env.ferrName,
             .unlink env.finName, .unlink env.foutName, .unlink env.ferrName] }

end ProcessHandler

namespace SyncLockModel

/-- Observable events of `sync_lock.SyncLock.release` in order. -/
inductive LockEv
  | syncCall
  | lockReleased
deriving Repr, DecidableEq

/-- `SyncLock.release` (lines 29-35): `try: if db is not None: db.sync()`
followed by `finally: lock.release()`.  The sync, when a database is attached,
is invoked strictly before the lock is released; an exception raised by the
sync is re-raised only after the `finally` block has released the lock. -/
def sync_lock_release (hasDb syncRaises : Bool) : List LockEv × Option PyErr :=
  if hasDb then
    ([.syncCall, .lockReleased],
      if syncRaises then some (.ioError "sync failed") else none)
  else ([.lockReleased], none)

/-- Observable events of one `process_handler.update_process_info` call. -/
inductive RegEv
  | acquireLock
  | commitDb
  | closeSession
  | releaseLock
deriving Repr, DecidableEq

/-- The event order of `process_handler.update_process_info` (lines 154-166):
`with process_lock:` acquires, the session commits when the row was found, the
`finally:` closes the session, and leaving the `with` block releases the
lock. -/
def update_process_info_events (found : Bool) : List RegEv :=
  [.acquireLock] ++ (if found then [.commitDb] else []) ++ [.closeSession, .releaseLock]

end SyncLockModel

/-! ## Concrete fixtures used by counterexamples and witnesses -/

/-- A freshly created record, as the `/start` endpoint inserts it. -/
def sampleReady : ApiServer.ProcessInfo :=
  { pid := 0, start_time := 17, state := .ready, program := .prover9,
    input := "formulas(goals). end_of_list." }

/-- A record mid-run. -/
def sampleRunning : ApiServer.ProcessInfo :=
  { pid := 4242, start_time := 17, state := .running, program := .prover9,
    input := "formulas(goals). end_of_list." }

/-- A record that finished. -/
def sampleDone : ApiServer.ProcessInfo :=
  { pid := 77, start_time := 3, state := .done, program := .mace4,
    input := "formulas(assumptions). end_of_list.", exit_code := some 0 }

/-- A dictionary holding one READY record under identifier 1. -/
def regReady : ApiServer.Registry := [(1, sampleReady)]

/-- A dictionary holding one RUNNING record under identifier 1. -/
def regRunning : ApiServer.Registry := [(1, sampleRunning)]

/-- A dictionary holding one DONE record under identifier 1. -/
def regDone : ApiServer.Registry := [(1, sampleDone)]

/-- Three backing-stream paths present on disk. -/
def fsThree : List String := ["/data/fin_1", "/data/fout_1", "/data/ferr_1"]

/-- Environment of a run in which the record is externally set KILLED during
the first monitoring tick (the process is then terminated; the subsequent
`poll()` reports signal death). -/
def envKillScenario : ApiServer.ApiRunEnv :=
  { binaryOk := true, programPath := "bin/prover9", pid := 4242,
    ticks := [{ external := some .killed }], naturalExit := 0,
    termPoll := some (-9), outText := "partial output\n", errText := "" }

/-- Environment of a `process_handler` run whose process exits at once with
exit code 0 and empty streams. -/
def phEnvQuick : ProcessHandler.PhEnv :=
  { binaryOk := true, programPath := "bin/prooftrans", finName := "/tmp/ph_fin",
    foutName := "/tmp/ph_fout", ferrName := "/tmp/ph_ferr", pid := 9001, now := 23,
    files := [], ticks := [], naturalExit := 0, termPoll := none, errContents := "" }

/-- A database holding one finished row under identifier 1. -/
def dbOne : ProcessHandler.Db :=
  [{ process_id := 1, pid := 3, start_time := 0, state := .done, program := .mace4,
     input_text := "formulas(assumptions). end_of_list." }]

/-- Environment of a run whose resolved binary is missing or not
executable. -/
def envNoBinary : ApiServer.ApiRunEnv :=
  { binaryOk := false, programPath := "bin/prover9", pid := 0, ticks := [],
    naturalExit := 0, termPoll := none, outText := "", errText := "" }

/-- Concatenation of a list of output lines (each line of the Python file
iteration keeps its trailing newline; lines are abstract strings here). -/
def concatLines : List String → String
  | [] => ""
  | l :: ls => l ++ concatLines ls

/-! ## Helper lemmas -/

namespace ApiServer

theorem regLookup_modify_self (reg : Registry) (id : Nat) (f : ProcessInfo → ProcessInfo) :
    regLookup (regModify reg id f) id = (regLookup reg id).map f := by
  induction reg with
  | nil => rfl
  | cons hd rest ih =>
      obtain ⟨k, v⟩ := hd
      by_cases hk : k = id <;> simp [regModify, regLookup, hk, ih]

theorem regLookup_modify_ne (reg : Registry) (id j : Nat) (f : ProcessInfo → ProcessInfo)
    (h : j ≠ id) : regLookup (regModify reg id f) j = regLookup reg j := by
  induction reg with
  | nil => rfl
  | cons hd rest ih =>
      obtain ⟨k, v⟩ := hd
      by_cases hk : k = id
      · have hkj : k ≠ j := by
          intro hkj
          exact h (by rw [← hkj]; exact hk)
        simp [regModify, regLookup, hk, hkj, Ne.symm h, ih]
      · by_cases hkj : k = j
        · simp [regModify, regLookup, hk, hkj, h]
        · simp [regModify, regLookup, hk, hkj, ih]

theorem regLookup_none_of_not_mem (reg : Registry) (id : Nat)
    (h : id ∉ reg.map Prod.fst) : regLookup reg id = none := by
  induction reg with
  | nil => rfl
  | cons hd rest ih =>
      obtain ⟨k, v⟩ := hd
      have hk : k ≠ id := by
        intro hk
        exact h (by simp [hk])
      have h2 : id ∉ rest.map Prod.fst := by
        intro hm
        exact h (by simp [hm])
      simp [regLookup, hk, ih h2]

theorem regLookup_erase_self (reg : Registry) (id : Nat)
    (h : (reg.map Prod.fst).Nodup) : regLookup (regErase reg id) id = none := by
  induction reg with
  | nil => rfl
  | cons hd rest ih =>
      obtain ⟨k, v⟩ := hd
      rw [List.map_cons, List.nodup_cons] at h
      by_cases hk : k = id
      · subst hk
        simpa [regErase] using regLookup_none_of_not_mem rest k h.1
      · simp [regErase, regLookup, hk, ih h.2]

theorem regLookup_erase_ne (reg : Registry) (id j : Nat) (h : j ≠ id) :
    regLookup (regErase reg id) j = regLookup reg j := by
  induction reg with
  | nil => rfl
  | cons hd rest ih =>
      obtain ⟨k, v⟩ := hd
      by_cases hk : k = id
      · have hkj : k ≠ j := by
          intro hkj
          exact h (by rw [← hkj]; exact hk)
        simp [regErase, regLookup, hk, hkj, Ne.symm h]
      · by_cases hkj : k = j
        · simp [regErase, regLookup, hk, hkj, h]
        · simp [regErase, regLookup, hk, hkj, ih]

theorem regModify_regModify (reg : Registry) (id : Nat)
    (f g : ProcessInfo → ProcessInfo) :
    regModify (regModify reg id f) id g = regModify reg id (fun i => g (f i)) := by
  induction reg with
  | nil => rfl
  | cons hd rest ih =>
      obtain ⟨k, v⟩ := hd
      by_cases hk : k = id <;> simp [regModify, hk, ih]

theorem regLookup_isSome_modify (reg : Registry) (id : Nat)
    (f : ProcessInfo → ProcessInfo) (h : (regLookup reg id).isSome = true) :
    (regLookup (regModify reg id f) id).isSome = true := by
  rw [regLookup_modify_self]
  cases hr : regLookup reg id <;> simp [hr] at h ⊢

theorem api_monitor_isSome (id : Nat) (ticks : List ApiTick) :
    ∀ reg : Registry, (regLookup reg id).isSome = true →
      (regLookup (api_monitor id reg ticks).1 id).isSome = true := by
  induction ticks with
  | nil => intro reg h; simpa [api_monitor] using h
  | cons t rest ih =>
      intro reg h
      cases hx : t.external with
      | none =>
          simp only [api_monitor, hx]
          split
          · exact regLookup_isSome_modify _ _ _ h
          · exact ih _ (regLookup_isSome_modify _ _ _ h)
      | some s =>
          simp only [api_monitor, hx]
          split
          · exact regLookup_isSome_modify _ _ _ (regLookup_isSome_modify _ _ _ h)
          · exact ih _ (regLookup_isSome_modify _ _ _ (regLookup_isSome_modify _ _ _ h))

theorem finish_update_state (p : ProgramType) (ec : Option Int) (o e : String)
    (i : ProcessInfo) : (finish_update p ec o e i).state = .done := by
  cases p <;> rfl

end ApiServer

namespace ProcessHandler

theorem applyDelta_process_id (p : DbProcess) (kw : InfoDelta) :
    (applyDelta p kw).process_id = p.process_id := rfl

theorem update_absent (db : Db) (id : Nat) (kw : InfoDelta)
    (h : dbLookup db id = none) : update_process_info db id kw = db := by
  induction db with
  | nil => rfl
  | cons p rest ih =>
      by_cases hp : p.process_id = id
      · simp [dbLookup, hp] at h
      · simp [dbLookup, hp] at h
        simp [update_process_info, hp, ih h]

theorem remove_absent (db : Db) (id : Nat)
    (h : dbLookup db id = none) : remove_process_info db id = db := by
  induction db with
  | nil => rfl
  | cons p rest ih =>
      by_cases hp : p.process_id = id
      · simp [dbLookup, hp] at h
      · simp [dbLookup, hp] at h
        simp [remove_process_info, hp, ih h]

theorem update_keys (db : Db) (id : Nat) (kw : InfoDelta) :
    (update_process_info db id kw).map DbProcess.process_id = db.map DbProcess.process_id := by
  induction db with
  | nil => rfl
  | cons p rest ih =>
      by_cases hp : p.process_id = id <;>
        simp [update_process_info, hp, applyDelta_process_id, ih]

theorem dbLookup_none_of_not_mem (db : Db) (id : Nat)
    (h : id ∉ db.map DbProcess.process_id) : dbLookup db id = none := by
  induction db with
  | nil => rfl
  | cons p rest ih =>
      have hp : p.process_id ≠ id := by
        intro hp
        exact h (by simp [hp])
      have h2 : id ∉ rest.map DbProcess.process_id := by
        intro hm
        exact h (by simp [hm])
      simp [dbLookup, hp, ih h2]

theorem dbLookup_remove_self (db : Db) (id : Nat)
    (h : (db.map DbProcess.process_id).Nodup) :
    dbLookup (remove_process_info db id) id = none := by
  induction db with
  | nil => rfl
  | cons p rest ih =>
      rw [List.map_cons, List.nodup_cons] at h
      by_cases hp : p.process_id = id
      · rw [← hp]
        simpa [remove_process_info] using dbLookup_none_of_not_mem rest p.process_id h.1
      · simp [remove_process_info, dbLookup, hp, ih h.2]

theorem dbLookup_update_self (db : Db) (id : Nat) (kw : InfoDelta) :
    dbLookup (update_process_info db id kw) id = (dbLookup db id).map (applyDelta · kw) := by
  induction db with
  | nil => rfl
  | cons p rest ih =>
      by_cases hp : p.process_id = id <;>
        simp [update_process_info, dbLookup, applyDelta_process_id, hp, ih]

/-- Statistics-scan step for the non-filter, non-model-finder kinds: the
filter branch and the domain-size branch fall away. -/
theorem stats_step_plain (program : ProgramType)
    (hiso : ¬(program = .isofilter ∨ program = .isofilter2))
    (hm : program ≠ .mace4) (acc : StatsAcc) (line : String) :
    stats_step program acc line =
      if acc.started = false then
        (if strContains line "STATISTICS" then { acc with started := true, stats := "" }
         else acc)
      else
        (if strStartsWith line "===" then { acc with started := false }
         else { acc with stats := acc.stats ++ line }) := by
  simp [stats_step, hiso, hm]

/-- Outside a block, lines without the STATISTICS marker leave the scan
state unchanged. -/
theorem foldl_skip (program : ProgramType)
    (hiso : ¬(program = .isofilter ∨ program = .isofilter2)) (hm : program ≠ .mace4)
    (pre : List String) (hpre : ∀ l ∈ pre, strContains l "STATISTICS" = false) :
    ∀ acc : StatsAcc, acc.started = false →
      pre.foldl (stats_step program) acc = acc := by
  induction pre with
  | nil => intro acc _; rfl
  | cons l rest ih =>
      intro acc hacc
      have hstep : stats_step program acc l = acc := by
        rw [stats_step_plain program hiso hm, if_pos hacc,
          if_neg (by simp [hpre l (by simp)])]
      rw [List.foldl_cons, hstep]
      exact ih (fun l' hl' => hpre l' (by simp [hl'])) acc hacc

/-- Inside a block, lines that do not start with `===` accumulate. -/
theorem foldl_block (program : ProgramType)
    (hiso : ¬(program = .isofilter ∨ program = .isofilter2)) (hm : program ≠ .mace4)
    (b : List String) (hb : ∀ l ∈ b, strStartsWith l "===" = false) :
    ∀ acc : StatsAcc, acc.started = true →
      b.foldl (stats_step program) acc =
        { acc with stats := acc.stats ++ concatLines b } := by
  induction b with
  | nil =>
      intro acc _
      simp [concatLines]
  | cons l rest ih =>
      intro acc hacc
      have hstep : stats_step program acc l = { acc with stats := acc.stats ++ l } := by
        rw [stats_step_plain program hiso hm, if_neg (by simp [hacc]),
          if_neg (by simp [hb l (by simp)])]
      rw [List.foldl_cons, hstep,
        ih (fun l' hl' => hb l' (by simp [hl']))
          { stats := acc.stats ++ l, started := acc.started,
            domain_size := acc.domain_size } hacc]
      simp [concatLines, String.append_assoc]

end ProcessHandler

/-! ## Claims -/

open ApiServer ProcessHandler SyncLockModel in
/-- C4, counterexample.  The claim says the registry's update and delete
operations fail with NotFound on an absent identifier; on the concrete store
`dbOne`, which has no row 999, `update_process_info` and
`remove_process_info` return silently with no effect, whereas the operations
as the specification words them (`registry_update_spec`,
`registry_delete_spec`) would fail with NotFound. -/
theorem claim_C4_counterexample :
    ProcessHandler.dbLookup dbOne 999 = none ∧
    ProcessHandler.update_process_info dbOne 999 { state := some .killed } = dbOne ∧
    ProcessHandler.remove_process_info dbOne 999 = dbOne ∧
    ProcessHandler.registry_update_spec dbOne 999 { state := some .killed } =
      .error .notFound ∧
    ProcessHandler.registry_delete_spec dbOne 999 = .error .notFound := by
  decide

/-- C4, amended: for every identifier absent from the store, the registry's
update and delete operations return silently with no effect (they do not
raise, and they modify no stored record); the NotFound failure exists only in
the specification's wording of the contract. -/
theorem claim_C4_amended (db : ProcessHandler.Db) (id : Nat)
    (kw : ProcessHandler.InfoDelta) (h : ProcessHandler.dbLookup db id = none) :
    ProcessHandler.update_process_info db id kw = db ∧
    ProcessHandler.remove_process_info db id = db ∧
    ProcessHandler.registry_update_spec db id kw = .error .notFound ∧
    ProcessHandler.registry_delete_spec db id = .error .notFound := by
  refine ⟨ProcessHandler.update_absent db id kw h, ProcessHandler.remove_absent db id h,
    ?_, ?_⟩
  · simp [ProcessHandler.registry_update_spec, h]
  · simp [ProcessHandler.registry_delete_spec, h]

/-- Witness for C4: the amended statement applied to the concrete store
`dbOne` and absent identifier 999. -/
theorem claim_C4_witness :
    ProcessHandler.update_process_info dbOne 999 { stats := some "s" } = dbOne ∧
    ProcessHandler.remove_process_info dbOne 999 = dbOne ∧
    ProcessHandler.registry_update_spec dbOne 999 { stats := some "s" } =
      .error .notFound ∧
    ProcessHandler.registry_delete_spec dbOne 999 = .error .notFound :=
  claim_C4_amended dbOne 999 { stats := some "s" } rfl

/-- C5, counterexample.  The claim says a successful delete removes both the
registry entry and the job's three backing files; on the concrete state
`regDone` (one DONE record) with the three backing paths `fsThree` on disk,
the delete endpoint succeeds and removes the registry entry but the
filesystem is untouched — the endpoint body performs no file removal. -/
theorem claim_C5_counterexample :
    (ApiServer.remove_process regDone 1 fsThree).response = .ok "Process 1 removed" ∧
    ApiServer.regLookup (ApiServer.remove_process regDone 1 fsThree).registry 1 = none ∧
    (ApiServer.remove_process regDone 1 fsThree).fs = fsThree ∧
    fsThree ≠ [] := by
  decide

/-- C5, amended: delete succeeds exactly when the job's state is terminal
(DONE, ERROR or KILLED); on success it removes the registry entry only — the
three backing files are not removed by the delete operation; for a
non-terminal job it fails with a state error and removes nothing. -/
theorem claim_C5_amended (reg : ApiServer.Registry) (id : Nat)
    (r : ApiServer.ProcessInfo) (fs : List String)
    (h : ApiServer.regLookup reg id = some r)
    (hnd : (reg.map Prod.fst).Nodup) :
    ((∃ m, (ApiServer.remove_process reg id fs).response = .ok m) ↔
        (r.state = .done ∨ r.state = .error ∨ r.state = .killed)) ∧
    ((r.state = .done ∨ r.state = .error ∨ r.state = .killed) →
      (ApiServer.remove_process reg id fs).registry = ApiServer.regErase reg id ∧
      ApiServer.regLookup (ApiServer.remove_process reg id fs).registry id = none ∧
      (ApiServer.remove_process reg id fs).fs = fs) ∧
    (¬(r.state = .done ∨ r.state = .error ∨ r.state = .killed) →
      (ApiServer.remove_process reg id fs).registry = reg ∧
      (ApiServer.remove_process reg id fs).fs = fs ∧
      (ApiServer.remove_process reg id fs).response =
        .error ⟨400, "Can only remove completed, errored, or killed processes"⟩) := by
  by_cases hs : r.state = .done ∨ r.state = .error ∨ r.state = .killed
  · have h1 : ApiServer.remove_process reg id fs =
        ⟨ApiServer.regErase reg id, fs, .ok s!"Process {id} removed"⟩ := by
      simp [ApiServer.remove_process, h, hs]
    refine ⟨⟨fun _ => hs, fun _ => ⟨_, by rw [h1]⟩⟩,
      fun _ => ⟨by rw [h1], ?_, by rw [h1]⟩, fun hns => absurd hs hns⟩
    rw [h1]
    exact ApiServer.regLookup_erase_self reg id hnd
  · have h1 : ApiServer.remove_process reg id fs =
        ⟨reg, fs, .error ⟨400, "Can only remove completed, errored, or killed processes"⟩⟩ := by
      simp [ApiServer.remove_process, h, hs]
    refine ⟨⟨?_, fun hs' => absurd hs' hs⟩, fun hs' => absurd hs' hs,
      fun _ => ⟨by rw [h1], by rw [h1], by rw [h1]⟩⟩
    intro hm
    obtain ⟨m, hm⟩ := hm
    rw [h1] at hm
    cases hm

/-- Witness for C5: the amended statement applied to the concrete state
`regDone`, identifier 1 and filesystem `fsThree`. -/
theorem claim_C5_witness :
    ((∃ m, (ApiServer.remove_process regDone 1 fsThree).response = .ok m) ↔
      (sampleDone.state = .done ∨ sampleDone.state = .error ∨ sampleDone.state = .killed)) ∧
    ((sampleDone.state = .done ∨ sampleDone.state = .error ∨ sampleDone.state = .killed) →
      (ApiServer.remove_process regDone 1 fsThree).registry = ApiServer.regErase regDone 1 ∧
      ApiServer.regLookup (ApiServer.remove_process regDone 1 fsThree).registry 1 = none ∧
      (ApiServer.remove_process regDone 1 fsThree).fs = fsThree) :=
  let h := claim_C5_amended regDone 1 sampleDone fsThree rfl (by decide)
  ⟨h.1, h.2.1⟩

/-- C9: `SyncLock.release` invokes the database sync strictly before the
underlying lock is released, releases the lock even when the sync raises
(re-raising the exception only afterwards), and the database-backed registry
update commits inside the critical section (between lock acquisition and lock
release). -/
theorem claim_C9 (hasDb syncRaises found : Bool) :
    (SyncLockModel.sync_lock_release hasDb syncRaises).1.getLast? =
      some .lockReleased ∧
    (hasDb = true →
      (SyncLockModel.sync_lock_release hasDb syncRaises).1 =
        [.syncCall, .lockReleased]) ∧
    (hasDb = true → syncRaises = true →
      (SyncLockModel.sync_lock_release hasDb syncRaises).2.isSome = true) ∧
    SyncLockModel.LockEv.lockReleased ∈ (SyncLockModel.sync_lock_release hasDb syncRaises).1 ∧
    (found = true →
      List.Sublist [SyncLockModel.RegEv.commitDb, SyncLockModel.RegEv.releaseLock]
        (SyncLockModel.update_process_info_events found)) ∧
    SyncLockModel.RegEv.releaseLock ∈ SyncLockModel.update_process_info_events found ∧
    (SyncLockModel.update_process_info_events found).getLast? = some .releaseLock := by
  cases hasDb <;> cases syncRaises <;> cases found <;> decide

/-- Witness for C9: with a database attached, a raising sync, and a found
row, the sync precedes the release, the exception is still pending after the
release, and the commit is inside the critical section. -/
theorem claim_C9_witness :
    (SyncLockModel.sync_lock_release true true).1 =
      [SyncLockModel.LockEv.syncCall, SyncLockModel.LockEv.lockReleased] ∧
    (SyncLockModel.sync_lock_release true true).2.isSome = true ∧
    List.Sublist [SyncLockModel.RegEv.commitDb, SyncLockModel.RegEv.releaseLock]
      (SyncLockModel.update_process_info_events true) :=
  let h := claim_C9 true true true
  ⟨h.2.1 rfl, h.2.2.1 rfl rfl, h.2.2.2.2.1 rfl⟩

/-- A kill call against a record whose state is neither RUNNING nor SUSPENDED
is rejected with the 400 state error and has no effect. -/
theorem kill_process_rejected (reg : ApiServer.Registry) (id : Nat)
    (info : ApiServer.ProcessInfo) (h : ApiServer.regLookup reg id = some info)
    (hs : ¬(info.state = .running ∨ info.state = .suspended)) :
    ApiServer.kill_process reg id =
      ⟨reg, [], .error ⟨400, "Process is not running or suspended"⟩⟩ := by
  simp [ApiServer.kill_process, h, hs]

/-- C3, counterexample.  The claim says kill succeeds exactly from RUNNING,
SUSPENDED **or READY**; on the concrete state `regReady` (one READY record)
the kill endpoint returns a 400 state error, sends no signal and leaves the
dictionary unchanged — READY is rejected by the source's
`state not in [RUNNING, SUSPENDED]` test. -/
theorem claim_C3_counterexample :
    sampleReady.state = ProcessState.ready ∧
    ApiServer.kill_process regReady 1 =
      { registry := regReady, signals := [],
        response := .error ⟨400, "Process is not running or suspended"⟩ } := by
  decide

/-- C3, amended: kill succeeds exactly when the record's state is RUNNING or
SUSPENDED (READY is also rejected); on success it sends SIGKILL to the
tracked pid and sets state KILLED; in every other state it returns a failure
and leaves the record unchanged; a second kill in succession fails with the
400 state error and does not modify the state set by the first call. -/
theorem claim_C3_amended (reg : ApiServer.Registry) (id : Nat)
    (r : ApiServer.ProcessInfo) (h : ApiServer.regLookup reg id = some r) :
    ((∃ m, (ApiServer.kill_process reg id).response = .ok m) ↔
        (r.state = .running ∨ r.state = .suspended)) ∧
    ((r.state = .running ∨ r.state = .suspended) →
      (ApiServer.kill_process reg id).registry =
        ApiServer.regModify reg id (fun i => { i with state := .killed }) ∧
      (ApiServer.kill_process reg id).signals = [(r.pid, .sigkill)] ∧
      ApiServer.regLookup (ApiServer.kill_process reg id).registry id =
        some { r with state := .killed } ∧
      (ApiServer.kill_process (ApiServer.kill_process reg id).registry id).response =
        .error ⟨400, "Process is not running or suspended"⟩ ∧
      (ApiServer.kill_process (ApiServer.kill_process reg id).registry id).registry =
        (ApiServer.kill_process reg id).registry) ∧
    (¬(r.state = .running ∨ r.state = .suspended) →
      (ApiServer.kill_process reg id).registry = reg ∧
      (ApiServer.kill_process reg id).signals = [] ∧
      (ApiServer.kill_process reg id).response =
        .error ⟨400, "Process is not running or suspended"⟩) := by
  by_cases hs : r.state = .running ∨ r.state = .suspended
  · have h1 : ApiServer.kill_process reg id =
        ⟨ApiServer.regModify reg id (fun i => { i with state := .killed }),
          [(r.pid, .sigkill)], .ok s!"Process {id} killed"⟩ := by
      simp [ApiServer.kill_process, h, hs]
    have h2 : ApiServer.regLookup (ApiServer.kill_process reg id).registry id =
        some { r with state := .killed } := by
      rw [h1]
      simp [ApiServer.regLookup_modify_self, h]
    have h3 : ApiServer.kill_process (ApiServer.kill_process reg id).registry id =
        ⟨(ApiServer.kill_process reg id).registry, [],
          .error ⟨400, "Process is not running or suspended"⟩⟩ :=
      kill_process_rejected _ _ _ h2 (by simp)
    refine ⟨⟨fun _ => hs, fun _ => ⟨_, by rw [h1]⟩⟩,
      fun _ => ⟨by rw [h1], by rw [h1], h2, ?_, ?_⟩, fun hns => absurd hs hns⟩
    · rw [h3]
    · rw [h3]
  · have h1 : ApiServer.kill_process reg id =
        ⟨reg, [], .error ⟨400, "Process is not running or suspended"⟩⟩ := by
      simp [ApiServer.kill_process, h, hs]
    refine ⟨⟨?_, fun hs' => absurd hs' hs⟩, fun hs' => absurd hs' hs,
      fun _ => ⟨by rw [h1], by rw [h1], by rw [h1]⟩⟩
    intro hm
    obtain ⟨m, hm⟩ := hm
    rw [h1] at hm
    cases hm

/-- Witness for C3: the amended statement applied to the concrete state
`regRunning` (one RUNNING record under identifier 1). -/
theorem claim_C3_witness :
    ((∃ m, (ApiServer.kill_process regRunning 1).response = .ok m) ↔
      (sampleRunning.state = .running ∨ sampleRunning.state = .suspended)) ∧
    ((sampleRunning.state = .running ∨ sampleRunning.state = .suspended) →
      (ApiServer.kill_process regRunning 1).registry =
        ApiServer.regModify regRunning 1 (fun i => { i with state := .killed }) ∧
      (ApiServer.kill_process regRunning 1).signals = [(sampleRunning.pid, .sigkill)] ∧
      ApiServer.regLookup (ApiServer.kill_process regRunning 1).registry 1 =
        some { sampleRunning with state := .killed } ∧
      (ApiServer.kill_process (ApiServer.kill_process regRunning 1).registry 1).response =
        .error ⟨400, "Process is not running or suspended"⟩ ∧
      (ApiServer.kill_process (ApiServer.kill_process regRunning 1).registry 1).registry =
        (ApiServer.kill_process regRunning 1).registry) :=
  let h := claim_C3_amended regRunning 1 sampleRunning rfl
  ⟨h.1, h.2.1⟩

/-- C8: on a platform with stop/continue signals (`os.name != 'nt'`), pausing
a RUNNING record moves it to SUSPENDED (modifying no other field) and sends
SIGSTOP to its pid; resuming then moves it back to RUNNING and sends SIGCONT;
after the round trip the stored record equals the original record — in
particular it keeps the same pid — and every other identifier's record is
untouched. -/
theorem claim_C8 (reg : ApiServer.Registry) (id : Nat) (r : ApiServer.ProcessInfo)
    (h : ApiServer.regLookup reg id = some r) (hs : r.state = .running) :
    (ApiServer.pause_process false reg id).response = .ok "Process paused" ∧
    (ApiServer.pause_process false reg id).signals = [(r.pid, .sigstop)] ∧
    ApiServer.regLookup (ApiServer.pause_process false reg id).registry id =
      some { r with state := .suspended } ∧
    (ApiServer.resume_process false (ApiServer.pause_process false reg id).registry id).response =
      .ok "Process resumed" ∧
    (ApiServer.resume_process false (ApiServer.pause_process false reg id).registry id).signals =
      [(r.pid, .sigcont)] ∧
    ApiServer.regLookup
      (ApiServer.resume_process false (ApiServer.pause_process false reg id).registry id).registry
      id = some r ∧
    (∀ j, j ≠ id →
      ApiServer.regLookup
        (ApiServer.resume_process false (ApiServer.pause_process false reg id).registry id).registry
        j = ApiServer.regLookup reg j) := by
  have hpause : ApiServer.pause_process false reg id =
      ⟨ApiServer.regModify reg id (fun i => { i with state := .suspended }),
        [(r.pid, .sigstop)], .ok "Process paused"⟩ := by
    simp [ApiServer.pause_process, h, hs]
  have hlook : ApiServer.regLookup (ApiServer.pause_process false reg id).registry id =
      some { r with state := .suspended } := by
    rw [hpause]
    simp [ApiServer.regLookup_modify_self, h]
  have hresume : ApiServer.resume_process false (ApiServer.pause_process false reg id).registry id =
      ⟨ApiServer.regModify (ApiServer.pause_process false reg id).registry id
          (fun i => { i with state := .running }),
        [(r.pid, .sigcont)], .ok "Process resumed"⟩ := by
    simp [ApiServer.resume_process, hlook]
  have hround : ({ { r with state := .suspended } with state := .running } :
      ApiServer.ProcessInfo) = r := by
    rw [← hs]
  have hfinal : ApiServer.regLookup
      (ApiServer.resume_process false (ApiServer.pause_process false reg id).registry id).registry
      id = some r := by
    rw [hresume]
    simp only
    rw [ApiServer.regLookup_modify_self, hlook]
    simp only [Option.map_some']
    exact congrArg some hround
  refine ⟨by rw [hpause], by rw [hpause], hlook, by rw [hresume], by rw [hresume],
    hfinal, ?_⟩
  intro j hj
  rw [hresume]
  simp only
  rw [ApiServer.regLookup_modify_ne _ _ _ _ hj, hpause]
  simp only
  rw [ApiServer.regLookup_modify_ne _ _ _ _ hj]

/-- Witness for C8: the round trip applied to the concrete state `regRunning`
(one RUNNING record with pid 4242 under identifier 1). -/
theorem claim_C8_witness :
    ApiServer.regLookup (ApiServer.pause_process false regRunning 1).registry 1 =
      some { sampleRunning with state := .suspended } ∧
    ApiServer.regLookup
      (ApiServer.resume_process false (ApiServer.pause_process false regRunning 1).registry 1).registry
      1 = some sampleRunning :=
  let h := claim_C8 regRunning 1 sampleRunning rfl rfl
  ⟨h.2.2.1, h.2.2.2.2.2.1⟩

/-- C7: when the resolved binary does not exist or is not executable,
`run_program` spawns no OS process and never calls terminate; the record
transitions directly to ERROR with a message that names the program (the
message starts with the program's name), and a subsequent status query
returns the record in that state. -/
theorem claim_C7 (env : ApiServer.ApiRunEnv) (p : ProgramType) (input : String)
    (id : Nat) (opts : Option RunOptions) (reg : ApiServer.Registry)
    (r : ApiServer.ProcessInfo) (hb : env.binaryOk = false)
    (h : ApiServer.regLookup reg id = some r) :
    (ApiServer.api_run_program env p input id opts reg).spawnedCommand = none ∧
    (ApiServer.api_run_program env p input id opts reg).terminated = false ∧
    (∃ rest,
      ApiServer.get_status (ApiServer.api_run_program env p input id opts reg).registry id =
        .ok { r with state := .error, error := some (p.value ++ rest) }) := by
  have hrun : ApiServer.api_run_program env p input id opts reg =
      { registry := ApiServer.regModify reg id (fun i =>
          { i with state := ProcessState.error,
                   error := some (p.value ++ " binary not found or not executable") }),
        spawnedCommand := none, terminated := false } := by
    simp [ApiServer.api_run_program, hb]
  refine ⟨by rw [hrun], by rw [hrun],
    ⟨" binary not found or not executable", ?_⟩⟩
  rw [hrun]
  simp [ApiServer.get_status, ApiServer.regLookup_modify_self, h]

/-- Witness for C7: a missing mace4 binary on the concrete state `regReady`:
no spawn, and the status query reports ERROR with a message starting with
`mace4`. -/
theorem claim_C7_witness :
    (ApiServer.api_run_program envNoBinary .mace4 "x" 1 none regReady).spawnedCommand =
      none ∧
    (∃ rest,
      ApiServer.get_status
        (ApiServer.api_run_program envNoBinary .mace4 "x" 1 none regReady).registry 1 =
        .ok { sampleReady with state := .error, error := some (ProgramType.mace4.value ++ rest) }) :=
  let h := claim_C7 envNoBinary .mace4 "x" 1 none regReady sampleReady rfl rfl
  ⟨h.1, h.2.2⟩

/-- C1, counterexample.  The claim says that when the monitoring loop observes
that the record was externally set to KILLED and terminates the process, the
state after `run_program` finishes is still KILLED.  In the concrete scenario
`envKillScenario` (the record is set KILLED during the first tick, the loop
observes it and terminates the process), the completion block of
`run_program` then overwrites the state unconditionally: the final state is
DONE, not KILLED. -/
theorem claim_C1_counterexample :
    (ApiServer.api_run_program envKillScenario .prover9 "x" 1 none regReady).terminated =
      true ∧
    (ApiServer.regLookup
        (ApiServer.api_run_program envKillScenario .prover9 "x" 1 none regReady).registry
        1).map (fun i => i.state) = some ProcessState.done ∧
    ProcessState.done ≠ ProcessState.killed := by
  decide

/-- C1, amended: the signal-controlling operations never mutate a record in a
terminal state (DONE, ERROR, KILLED) — kill, pause and resume all fail with a
state error and leave the dictionary unchanged — but the Tool Runner's
completion step does not respect KILLED: whenever `run_program` runs to
completion against an existing record (in particular when the monitoring loop
observed an externally written KILLED and terminated the process), the final
update sets the record's state to DONE, so after `run_program` finishes the
state is DONE, not KILLED. -/
theorem claim_C1_amended (reg : ApiServer.Registry) (id : Nat)
    (r : ApiServer.ProcessInfo) (h : ApiServer.regLookup reg id = some r) :
    (r.state = .done ∨ r.state = .error ∨ r.state = .killed →
      (ApiServer.kill_process reg id).registry = reg ∧
      (ApiServer.kill_process reg id).response =
        .error ⟨400, "Process is not running or suspended"⟩ ∧
      (ApiServer.pause_process false reg id).registry = reg ∧
      (ApiServer.pause_process true reg id).registry = reg ∧
      (ApiServer.resume_process false reg id).registry = reg ∧
      (ApiServer.resume_process true reg id).registry = reg) ∧
    (∀ env : ApiServer.ApiRunEnv, env.binaryOk = true →
      ∀ (program : ProgramType) (input : String) (opts : Option RunOptions),
        (ApiServer.regLookup
            (ApiServer.api_run_program env program input id opts reg).registry id).map
          (fun i => i.state) = some ProcessState.done) := by
  constructor
  · intro hterm
    have hks : ¬(r.state = .running ∨ r.state = .suspended) := by
      rcases hterm with h1 | h1 | h1 <;> simp [h1]
    have hpr : ¬r.state = .running := by
      rcases hterm with h1 | h1 | h1 <;> simp [h1]
    have hsr : ¬r.state = .suspended := by
      rcases hterm with h1 | h1 | h1 <;> simp [h1]
    have hk := kill_process_rejected reg id r h hks
    refine ⟨by rw [hk], by rw [hk], ?_, ?_, ?_, ?_⟩ <;>
      simp [ApiServer.pause_process, ApiServer.resume_process, h, hpr, hsr]
  · intro env henv program input opts
    rcases hmon : ApiServer.api_monitor id (ApiServer.regModify reg id fun i =>
        { i with pid := env.pid, state := ProcessState.running }) env.ticks with ⟨reg2, ob⟩
    have hsome1 : (ApiServer.regLookup (ApiServer.regModify reg id (fun i =>
        { i with pid := env.pid, state := ProcessState.running })) id).isSome = true := by
      rw [ApiServer.regLookup_modify_self, h]
      rfl
    have hsome2 := ApiServer.api_monitor_isSome id env.ticks _ hsome1
    rw [hmon] at hsome2
    obtain ⟨r2, hr2⟩ := Option.isSome_iff_exists.mp hsome2
    simp only [ApiServer.api_run_program, henv, hmon]
    rw [if_neg (by simp)]
    simp only
    rw [ApiServer.regLookup_modify_self, hr2]
    simp [ApiServer.finish_update_state]

/-- Witness for C1: the amended statement applied to the concrete state
`regDone` (terminal DONE record, left untouched by kill) and to the
kill-during-run scenario, whose final state is DONE. -/
theorem claim_C1_witness :
    (ApiServer.kill_process regDone 1).registry = regDone ∧
    (ApiServer.regLookup
        (ApiServer.api_run_program envKillScenario .prover9 "x" 1 none regDone).registry
        1).map (fun i => i.state) = some ProcessState.done :=
  let h := claim_C1_amended regDone 1 sampleDone rfl
  ⟨(h.1 (Or.inl rfl)).1, h.2 envKillScenario rfl .prover9 "x" none⟩

/-- C2 (code bug): in the `process_handler` revision, for a job whose spawned
process exits, `run_program` writes the terminal DONE update (exit code,
error-stream contents) into the durable store — and then immediately calls
`remove_process_info`, deleting the row, so after `run_program` completes the
record is gone and a status query finds nothing.  The concrete scenario: a
prooftrans job under identifier 100 whose process exits at once with code 0;
the process is spawned, the DONE update is written, the row is removed, and
`get_process_info` returns none. -/
theorem claim_C2_codebug :
    ProcessHandler.PhEffect.spawn ["bin/prooftrans"] ∈
      (ProcessHandler.ph_run_program phEnvQuick .prooftrans (.text "proof text") 100 none
        []).effects ∧
    ProcessHandler.PhEffect.updateInfo 100
        { exit_code := some (some 0), error := some "", state := some .done } ∈
      (ProcessHandler.ph_run_program phEnvQuick .prooftrans (.text "proof text") 100 none
        []).effects ∧
    ProcessHandler.PhEffect.removeInfo 100 ∈
      (ProcessHandler.ph_run_program phEnvQuick .prooftrans (.text "proof text") 100 none
        []).effects ∧
    ProcessHandler.get_process_info
      (ProcessHandler.ph_run_program phEnvQuick .prooftrans (.text "proof text") 100 none
        []).db 100 = none := by
  decide

/-- C10: a `run_program` call whose input is an integer identifier matching no
stored record takes the exception path before the spawn step: no OS process is
spawned, the job is marked ERROR and its registry row is then removed (the
final store has no row for the job), and the three freshly created scratch
files are closed and deleted from disk — the effect trace is exactly file
creation, the ERROR update, the removal, the three closes and the three
unlinks, in that order. -/
theorem claim_C10 (env : ProcessHandler.PhEnv) (program : ProgramType) (j id : Nat)
    (opts : Option RunOptions) (db : ProcessHandler.Db)
    (hb : env.binaryOk = true) (hj : ProcessHandler.dbLookup db j = none)
    (hnd : (db.map ProcessHandler.DbProcess.process_id).Nodup) :
    ∃ msg,
      (ProcessHandler.ph_run_program env program (.int j) id opts db).effects =
        [.createTemp env.finName, .createTemp env.foutName, .createTemp env.ferrName,
         .updateInfo id { state := some .error, error := some msg }, .removeInfo id,
         .closeFile env.finName, .closeFile env.foutName, .closeFile env.ferrName,
         .unlink env.finName, .unlink env.foutName, .unlink env.ferrName] ∧
      (∀ c, ProcessHandler.PhEffect.spawn c ∉
        (ProcessHandler.ph_run_program env program (.int j) id opts db).effects) ∧
      ProcessHandler.dbLookup
        (ProcessHandler.ph_run_program env program (.int j) id opts db).db id = none := by
  have hlookup : ∀ kw, ProcessHandler.dbLookup
      (ProcessHandler.remove_process_info
        (ProcessHandler.update_process_info db id kw) id) id = none := by
    intro kw
    apply ProcessHandler.dbLookup_remove_self
    rw [ProcessHandler.update_keys]
    exact hnd
  by_cases hiso : program = .isofilter ∨ program = .isofilter2
  · have hrun : ProcessHandler.ph_run_program env program (.int j) id opts db =
        { db := ProcessHandler.remove_process_info
            (ProcessHandler.update_process_info db id
              { state := some .error,
                error := some "manual_standardize_mace4_output expected a string, got int" }) id,
          effects :=
            [.createTemp env.finName, .createTemp env.foutName, .createTemp env.ferrName,
             .updateInfo id { state := some .error,
                              error := some "manual_standardize_mace4_output expected a string, got int" },
             .removeInfo id,
             .closeFile env.finName, .closeFile env.foutName, .closeFile env.ferrName,
             .unlink env.finName, .unlink env.foutName, .unlink env.ferrName] } := by
      simp [ProcessHandler.ph_run_program, ProcessHandler.ph_try, hb,
        ProcessHandler.get_process_info, hj, hiso,
        ProcessHandler.manual_standardize_mace4_output, PyErr.msg]
    refine ⟨"manual_standardize_mace4_output expected a string, got int",
      by rw [hrun], ?_, by rw [hrun]; exact hlookup _⟩
    intro c hc
    rw [hrun] at hc
    simp at hc
  · have hrun : ProcessHandler.ph_run_program env program (.int j) id opts db =
        { db := ProcessHandler.remove_process_info
            (ProcessHandler.update_process_info db id
              { state := some .error,
                error := some "int object has no attribute encode" }) id,
          effects :=
            [.createTemp env.finName, .createTemp env.foutName, .createTemp env.ferrName,
             .updateInfo id { state := some .error,
                              error := some "int object has no attribute encode" },
             .removeInfo id,
             .closeFile env.finName, .closeFile env.foutName, .closeFile env.ferrName,
             .unlink env.finName, .unlink env.foutName, .unlink env.ferrName] } := by
      simp [ProcessHandler.ph_run_program, ProcessHandler.ph_try, hb,
        ProcessHandler.get_process_info, hj, hiso, PyErr.msg]
    refine ⟨"int object has no attribute encode",
      by rw [hrun], ?_, by rw [hrun]; exact hlookup _⟩
    intro c hc
    rw [hrun] at hc
    simp at hc

/-- Witness for C10: a prover9 job chained to the absent identifier 5 against
the empty store: no spawn, the ERROR-then-remove updates, and the three
scratch files are deleted. -/
theorem claim_C10_witness :
    ∃ msg,
      (ProcessHandler.ph_run_program phEnvQuick .prover9 (.int 5) 7 none []).effects =
        [.createTemp phEnvQuick.finName, .createTemp phEnvQuick.foutName,
         .createTemp phEnvQuick.ferrName,
         .updateInfo 7 { state := some .error, error := some msg }, .removeInfo 7,
         .closeFile phEnvQuick.finName, .closeFile phEnvQuick.foutName,
         .closeFile phEnvQuick.ferrName,
         .unlink phEnvQuick.finName, .unlink phEnvQuick.foutName,
         .unlink phEnvQuick.ferrName] ∧
      (∀ c, ProcessHandler.PhEffect.spawn c ∉
        (ProcessHandler.ph_run_program phEnvQuick .prover9 (.int 5) 7 none []).effects) ∧
      ProcessHandler.dbLookup
        (ProcessHandler.ph_run_program phEnvQuick .prover9 (.int 5) 7 none []).db 7 =
        none :=
  claim_C10 phEnvQuick .prover9 5 7 none [] rfl rfl (by decide)

/-- C6: for output text consisting of two successive statistics blocks — each
opened by a line containing the literal `STATISTICS` marker and closed by a
line beginning with a row of `=` characters — possibly surrounded by
marker-free material, the Output Stats Extractor returns exactly the later
block's contents, discarding the earlier block; and re-running it on the same
text yields the same result (the extractor is a pure function of the text). -/
theorem claim_C6 (pre b1 b2 post : List String) (o1 c1 o2 c2 : String)
    (hpre : ∀ l ∈ pre, strContains l "STATISTICS" = false)
    (hpost : ∀ l ∈ post, strContains l "STATISTICS" = false)
    (ho1 : strContains o1 "STATISTICS" = true)
    (ho2 : strContains o2 "STATISTICS" = true)
    (hb1 : ∀ l ∈ b1, strStartsWith l "===" = false)
    (hb2 : ∀ l ∈ b2, strStartsWith l "===" = false)
    (hc1 : strStartsWith c1 "===" = true)
    (hc2 : strStartsWith c2 "===" = true) :
    ProcessHandler.extract_stats .prover9
        (pre ++ [o1] ++ b1 ++ [c1] ++ [o2] ++ b2 ++ [c2] ++ post) = concatLines b2 ∧
    ProcessHandler.extract_stats .prover9
        (pre ++ [o1] ++ b1 ++ [c1] ++ [o2] ++ b2 ++ [c2] ++ post) =
      ProcessHandler.extract_stats .prover9
        (pre ++ [o1] ++ b1 ++ [c1] ++ [o2] ++ b2 ++ [c2] ++ post) := by
  have hiso : ¬(ProgramType.prover9 = .isofilter ∨ ProgramType.prover9 = .isofilter2) := by
    decide
  have hm : ProgramType.prover9 ≠ .mace4 := by decide
  have hopen : ∀ (o : String) (acc : ProcessHandler.StatsAcc),
      strContains o "STATISTICS" = true → acc.started = false →
      ProcessHandler.stats_step .prover9 acc o =
        { acc with started := true, stats := "" } := by
    intro o acc ho hacc
    rw [ProcessHandler.stats_step_plain _ hiso hm, if_pos hacc, if_pos ho]
  have hclose : ∀ (c : String) (acc : ProcessHandler.StatsAcc),
      strStartsWith c "===" = true → acc.started = true →
      ProcessHandler.stats_step .prover9 acc c = { acc with started := false } := by
    intro c acc hc hacc
    rw [ProcessHandler.stats_step_plain _ hiso hm, if_neg (by simp [hacc]), if_pos hc]
  have hrun : (pre ++ [o1] ++ b1 ++ [c1] ++ [o2] ++ b2 ++ [c2] ++ post).foldl
      (ProcessHandler.stats_step .prover9) {} =
      { stats := concatLines b2, started := false, domain_size := 0 } := by
    rw [List.foldl_append, List.foldl_append, List.foldl_append, List.foldl_append,
      List.foldl_append, List.foldl_append, List.foldl_append]
    rw [ProcessHandler.foldl_skip _ hiso hm pre hpre {} rfl]
    have s1 : List.foldl (ProcessHandler.stats_step .prover9)
        ({} : ProcessHandler.StatsAcc) [o1] =
        { stats := "", started := true, domain_size := 0 } := by
      rw [List.foldl_cons, List.foldl_nil]
      exact hopen o1 {} ho1 rfl
    rw [s1]
    rw [ProcessHandler.foldl_block _ hiso hm b1 hb1
      { stats := "", started := true, domain_size := 0 } rfl]
    have s2 : List.foldl (ProcessHandler.stats_step .prover9)
        { stats := ("" : String) ++ concatLines b1, started := true, domain_size := 0 } [c1] =
        { stats := ("" : String) ++ concatLines b1, started := false, domain_size := 0 } := by
      rw [List.foldl_cons, List.foldl_nil]
      exact hclose c1 _ hc1 rfl
    rw [s2]
    have s3 : List.foldl (ProcessHandler.stats_step .prover9)
        { stats := ("" : String) ++ concatLines b1, started := false, domain_size := 0 } [o2] =
        { stats := "", started := true, domain_size := 0 } := by
      rw [List.foldl_cons, List.foldl_nil]
      exact hopen o2 _ ho2 rfl
    rw [s3]
    rw [ProcessHandler.foldl_block _ hiso hm b2 hb2
      { stats := "", started := true, domain_size := 0 } rfl]
    have s4 : List.foldl (ProcessHandler.stats_step .prover9)
        { stats := ("" : String) ++ concatLines b2, started := true, domain_size := 0 } [c2] =
        { stats := ("" : String) ++ concatLines b2, started := false, domain_size := 0 } := by
      rw [List.foldl_cons, List.foldl_nil]
      exact hclose c2 _ hc2 rfl
    rw [s4]
    rw [ProcessHandler.foldl_skip _ hiso hm post hpost _ rfl]
    rw [String.empty_append]
  refine ⟨?_, rfl⟩
  rw [ProcessHandler.extract_stats, hrun]
  rfl

/-- Witness for C6: a concrete seven-line output with two successive
STATISTICS blocks; the extractor keeps only the later block's line. -/
theorem claim_C6_witness :
    ProcessHandler.extract_stats .prover9
        (["out line\n"] ++ ["--- STATISTICS ---\n"] ++ ["Given=1.\n"] ++ ["=== end\n"]
          ++ ["STATISTICS\n"] ++ ["Kept=2.\n"] ++ ["======\n"] ++ []) =
      concatLines ["Kept=2.\n"] :=
  (claim_C6 ["out line\n"] ["Given=1.\n"] ["Kept=2.\n"] []
    "--- STATISTICS ---\n" "=== end\n" "STATISTICS\n" "======\n"
    (by decide) (by decide) (by decide) (by decide)
    (by decide) (by decide) (by decide) (by decide)).1
